import Mathlib

/-!
Verification of the rom-properties binary-format decoders.

Shallow embedding of the decoders in `src/src/libromdata/`:
  * `Audio/SAP.cpp`            — Atari SAP plaintext tag parser and detector
  * `Console/Xbox360_XDBF.cpp` — XDBF resource container (string tables,
                                 images, achievements)
  * `Console/Xbox360_XEX.cpp`  — XEX executable (optional-header table,
                                 PE reader / decryption-key policy)
  * `Nintendo3DS.cpp`          — 3DS detector and lazy header loaders

Files are byte lists (`List Nat`, each entry < 256).  Machine integers are
modelled as `Nat` with explicit `% 2^w` where C overflow semantics matter.
I/O is modelled either directly on the byte list (`seekAndRead`) or, for
the Nintendo 3DS / XEX loaders, through an explicit read-oracle structure
whose fields correspond one-to-one to the `file->seek` / `file->read`
calls of the source; theorems over all oracles therefore cover all file
contents and all short-read/seek-failure patterns.
-/

namespace RomProps

/-! ## Byte and integer utilities -/

/-- Byteswap a 16-bit value (`cpu_to_be16` / `be16_to_cpu` on the
little-endian reference platform). -/
def bswap16 (v : Nat) : Nat :=
  ((v % 256) * 256) + ((v / 256) % 256)

/-- Byteswap a 32-bit value (`cpu_to_be32` / `be32_to_cpu` on the
little-endian reference platform). -/
def bswap32 (v : Nat) : Nat :=
  (v % 256) * 16777216 + ((v / 256) % 256) * 65536 +
  ((v / 65536) % 256) * 256 + ((v / 16777216) % 256)

/-- Byteswap a 64-bit value (`cpu_to_be64` / `be64_to_cpu` on the
little-endian reference platform). -/
def bswap64 (v : Nat) : Nat :=
  bswap32 (v % 4294967296) * 4294967296 + bswap32 ((v / 4294967296) % 4294967296)

/-- Read a little-endian 16-bit value from a byte list at `off`
(out-of-range bytes read as 0, mirroring a struct overlay on a buffer
whose length has already been checked). -/
def le16 (l : List Nat) (off : Nat) : Nat :=
  (l.getD off 0) + (l.getD (off+1) 0) * 256

/-- Read a little-endian 32-bit value from a byte list at `off`. -/
def le32 (l : List Nat) (off : Nat) : Nat :=
  (l.getD off 0) + (l.getD (off+1) 0) * 256 +
  (l.getD (off+2) 0) * 65536 + (l.getD (off+3) 0) * 16777216

/-- Read a little-endian 64-bit value from a byte list at `off`. -/
def le64 (l : List Nat) (off : Nat) : Nat :=
  le32 l off + le32 l (off+4) * 4294967296

/-- Model of `IRpFile::seekAndRead(addr, buf, len)`: seek to `addr` and
read up to `len` bytes; returns the bytes actually read.  A request
crossing end-of-file returns fewer bytes than requested (a short read). -/
def seekAndRead (file : List Nat) (addr len : Nat) : List Nat :=
  (file.drop addr).take len

/-! ## SAP plaintext tag parser (`Audio/SAP.cpp`) -/

namespace SAP

/-- Model of the `ISSPACE` macro (`isspace` on an unsigned char): space
(32) or one of HT, LF, VT, FF, CR (9..13). -/
def ISSPACE (c : Nat) : Bool :=
  c == 32 || (9 ≤ c && c ≤ 13)

/-- Uppercase an ASCII byte; `strcasecmp` equality is modelled by
comparing uppercased bytes. -/
def upperB (c : Nat) : Nat :=
  if 97 ≤ c && c ≤ 122 then c - 32 else c

/-- Model of `SAPPrivate::TagData` with the constructor's defaults
(`tags_read=false, songs=1, def_song=0`, flags false, everything else
zero/empty). -/
structure TagData where
  tags_read : Bool := false
  author : List Nat := []
  name : List Nat := []
  date : List Nat := []
  songs : Nat := 1
  def_song : Nat := 0
  ntsc : Bool := false
  stereo : Bool := false
  type : Nat := 0
  fastplay : Nat := 0
  init_addr : Nat := 0
  music_addr : Nat := 0
  player_addr : Nat := 0
  covox_addr : Nat := 0
  deriving Repr, DecidableEq

/-- Accumulate decimal digits: returns the value read and the rest of the
input (the `endptr` position). -/
def decDigits : List Nat → Nat → Nat × List Nat
  | [], acc => (acc, [])
  | c :: rest, acc =>
    if 48 ≤ c && c ≤ 57 then decDigits rest (acc * 10 + (c - 48))
    else (acc, c :: rest)

/-- Value of a hexadecimal digit byte, if it is one. -/
def hexVal (c : Nat) : Option Nat :=
  if 48 ≤ c && c ≤ 57 then some (c - 48)
  else if 97 ≤ c && c ≤ 102 then some (c - 87)
  else if 65 ≤ c && c ≤ 70 then some (c - 55)
  else none

/-- Accumulate hexadecimal digits, as `decDigits`. -/
def hexDigits : List Nat → Nat → Nat × List Nat
  | [], acc => (acc, [])
  | c :: rest, acc =>
    match hexVal c with
    | some d => hexDigits rest (acc * 16 + d)
    | none => (acc, c :: rest)

/-- Model of `LONG_MAX` on the 64-bit reference platform; `strtol` clamps
positive overflow to it. -/
def LONG_MAX : Nat := 9223372036854775807

/-- Magnitude of `LONG_MIN` on the 64-bit reference platform; `strtol`
clamps negative overflow to `LONG_MIN` = -2^63. -/
def LONG_MIN_MAG : Nat := 9223372036854775808

/-- Model of `strtol(s, &endptr, 10)` on a string with no leading
whitespace (the caller has already skipped it): optional sign, then
decimal digits.  Returns the clamped value and the rest of the string at
`endptr`; if no digit is consumed the rest equals the whole input. -/
def strtol10 (s : List Nat) : Int × List Nat :=
  match s with
  | 45 :: rest =>
    let (v, r) := decDigits rest 0
    if r.length == rest.length then (0, s) else (-(min v LONG_MIN_MAG : Nat), r)
  | 43 :: rest =>
    let (v, r) := decDigits rest 0
    if r.length == rest.length then (0, s) else ((min v LONG_MAX : Nat), r)
  | _ =>
    let (v, r) := decDigits s 0
    if r.length == s.length then (0, s) else ((min v LONG_MAX : Nat), r)

/-- Hexadecimal digits with the optional `0x`/`0X` prefix accepted by
`strtol(..., 16)`. -/
def hexBody (s : List Nat) : Nat × List Nat :=
  match s with
  | 48 :: x :: rest =>
    if (x == 120 || x == 88) && (hexVal (rest.headD 0)).isSome then
      hexDigits rest 0
    else hexDigits s 0
  | _ => hexDigits s 0

/-- Model of `strtol(s, &endptr, 16)` on a string with no leading
whitespace. -/
def strtol16 (s : List Nat) : Int × List Nat :=
  match s with
  | 45 :: rest =>
    let (v, r) := hexBody rest
    if r.length == rest.length then (0, s) else (-(min v LONG_MIN_MAG : Nat), r)
  | 43 :: rest =>
    let (v, r) := hexBody rest
    if r.length == rest.length then (0, s) else ((min v LONG_MAX : Nat), r)
  | _ =>
    let (v, r) := hexBody s
    if r.length == s.length then (0, s) else ((min v LONG_MAX : Nat), r)

/-- Cast of a `long` to `uint16_t` (`static_cast<uint16_t>(val)`). -/
def toU16 (v : Int) : Nat :=
  (v % 65536).toNat

/-- Model of the `*endptr == '\0' || ISSPACE(*endptr)` acceptance check on
the rest of the token after the parsed number. -/
def endptrOk : List Nat → Bool
  | [] => true
  | c :: _ => ISSPACE c

/-- Numeric tag assignment (`KT_UINT16_DEC` / `KT_UINT16_HEX` cases):
parse the parameter with `strtol`; assign only if at least one digit was
consumed and the number is followed by end-of-string or whitespace.
`width` is the byte width of the destination field: the source stores
through a `uint16_t*` even for the `uint8_t` fields `songs`/`def_song`,
so the named field receives the value's low byte.  The two-byte store
also clobbers the struct byte after the named field (on the
little-endian reference platform `SONGS` overwrites `def_song` with the
high byte and `DEFSONG` overwrites the `ntsc` bool); that cross-field
memory effect is not modelled — the model and the code agree on every
field whenever each stored value fits its field (all values < 256 for
`SONGS`/`DEFSONG`), and diverge on neighbouring fields otherwise (e.g. a
`SONGS` value > 255 written after `DEFSONG`). -/
def numAssign (hex : Bool) (cur : Nat) (width : Nat) (params : Option (List Nat)) : Nat :=
  match params with
  | none => cur
  | some ps =>
    let (v, rest) := if hex then strtol16 ps else strtol10 ps
    if rest.length < ps.length && endptrOk rest then toU16 v % width else cur

/-- Split a list at the first occurrence of `d` (`strchr`): returns the
part before and the part after, or `none` when `d` does not occur. -/
def splitAtFirst (d : Nat) : List Nat → Option (List Nat × List Nat)
  | [] => none
  | c :: rest =>
    if c == d then some ([], rest)
    else
      match splitAtFirst d rest with
      | some (a, b) => some (c :: a, b)
      | none => none

/-- Model of `latin1_to_utf8`: ASCII bytes are kept, bytes ≥ 0x80 are
encoded as two UTF-8 bytes. -/
def latin1ToUtf8 : List Nat → List Nat
  | [] => []
  | c :: rest =>
    if c < 128 then c :: latin1ToUtf8 rest
    else (192 + c / 64) :: (128 + c % 64) :: latin1ToUtf8 rest

/-- String tag assignment (`KT_STRING` case): the parameter must start
with a double quote and contain a closing double quote; the bytes between
them are converted with `latin1_to_utf8`.  Otherwise the field is left
unchanged. -/
def strAssign (cur : List Nat) (params : Option (List Nat)) : List Nat :=
  match params with
  | none => cur
  | some ps =>
    match ps with
    | 34 :: rest =>
      match splitAtFirst 34 rest with
      | some (content, _) => latin1ToUtf8 content
      | none => cur
    | _ => cur

/-- Apply one keyword to the tag set.  `kw` is the uppercased keyword
(before the first space, `'\r'`-stripped in the no-parameter case), and
`params` the parameter with leading `ISSPACE` bytes removed (`none` when
absent or all-space).  Mirrors the `kwds[]` table and the `switch` on the
keyword type.  Note the `KT_CHAR` case: due to the misplaced parenthesis
in the source (`!ISSPACE(params[0] && ...)`) the condition is always
true, so `TYPE` stores the first parameter byte unconditionally. -/
def keywordApply (tags : TagData) (kw : List Nat) (params : Option (List Nat)) : TagData :=
  if kw == [65,85,84,72,79,82] then        -- AUTHOR
    { tags with author := strAssign tags.author params }
  else if kw == [78,65,77,69] then         -- NAME
    { tags with name := strAssign tags.name params }
  else if kw == [68,65,84,69] then         -- DATE
    { tags with date := strAssign tags.date params }
  else if kw == [83,79,78,71,83] then      -- SONGS
    { tags with songs := numAssign false tags.songs 256 params }
  else if kw == [68,69,70,83,79,78,71] then -- DEFSONG
    { tags with def_song := numAssign false tags.def_song 256 params }
  else if kw == [83,84,69,82,69,79] then   -- STEREO
    { tags with stereo := true }
  else if kw == [78,84,83,67] then         -- NTSC
    { tags with ntsc := true }
  else if kw == [84,89,80,69] then         -- TYPE
    match params with
    | none => tags
    | some ps => { tags with type := ps.headD 0 }
  else if kw == [70,65,83,84,80,76,65,89] then -- FASTPLAY
    { tags with fastplay := numAssign false tags.fastplay 65536 params }
  else if kw == [73,78,73,84] then         -- INIT
    { tags with init_addr := numAssign true tags.init_addr 65536 params }
  else if kw == [77,85,83,73,67] then      -- MUSIC
    { tags with music_addr := numAssign true tags.music_addr 65536 params }
  else if kw == [80,76,65,89,69,82] then   -- PLAYER
    { tags with player_addr := numAssign true tags.player_addr 65536 params }
  else if kw == [67,79,86,79,88] then      -- COVOX
    { tags with covox_addr := numAssign true tags.covox_addr 65536 params }
  else tags

/-- Process one `strtok_r` token: find the first space; if present the
keyword is the part before it and the parameter the part after with
leading whitespace skipped (`nullptr` when empty); if absent, the token
with a trailing `'\r'` stripped is the keyword and there is no
parameter. -/
def processToken (tags : TagData) (token : List Nat) : TagData :=
  match splitAtFirst 32 token with
  | some (kwRaw, paramsRaw) =>
    let ps := paramsRaw.dropWhile (fun c => ISSPACE c)
    let params := if ps.isEmpty then none else some ps
    keywordApply tags (kwRaw.map upperB) params
  | none =>
    let kwRaw := token.takeWhile (fun c => c ≠ 13)
    keywordApply tags (kwRaw.map upperB) none

/-- Loop over the tokens, stopping at a token whose first byte is 0xFF
(end-of-tags marker). -/
def parseLines : List (List Nat) → TagData → TagData
  | [], tags => tags
  | token :: rest, tags =>
    match token with
    | [] => parseLines rest tags
    | c :: _ =>
      if c == 255 then tags
      else parseLines rest (processToken tags token)

/-- Parse the tag lines after the SAP signature.  `strtok_r` operates on
a NUL-terminated buffer, so parsing stops at the first 0 byte; tokens are
maximal runs between `'\n'` delimiters (empty tokens never occur). -/
def parseBody (rest : List Nat) : TagData :=
  let cstr := rest.takeWhile (fun c => c ≠ 0)
  let tokens := (cstr.splitOn 10).filter (fun t => ¬ t.isEmpty)
  let tags := parseLines tokens {}
  { tags with tags_read := true }

/-- Model of `SAPPrivate::parseTags`: read up to 4096 bytes from the start
of the file; fewer than 6 bytes, or a stream not beginning with
`"SAP\r\n"` or `"SAP\n"`, yields the default `TagData`
(`tags_read = false`). -/
def parseTags (file : List Nat) : TagData :=
  let bytes := file.take 4096
  if bytes.length < 6 then {}
  else if bytes.take 5 == [83,65,80,13,10] then parseBody (bytes.drop 5)
  else if bytes.take 4 == [83,65,80,10] then parseBody (bytes.drop 4)
  else {}

/-- Model of `SAP::isRomSupported_static`.  The input mirrors
`DetectInfo`: header bytes (`pData`, with `size` its length), the header
address, the optional extension and the file size. -/
def isRomSupported (headerAddr : Nat) (header : List Nat) : Int :=
  if headerAddr ≠ 0 ∨ header.length < 6 then -1
  else if header.length ≥ 7 && header.take 5 == [83,65,80,13,10] then 0
  else if header.take 4 == [83,65,80,10] then 0
  else -1

end SAP

/-! ## Xbox 360 XDBF resource container (`Console/Xbox360_XDBF.cpp`) -/

namespace XDBF

/-- Modelled from the spec: `xbox360_xdbf_structs.h` is not under `src/`.
SPA namespace id for metadata resources (`XDBF_SPA_NAMESPACE_METADATA`). -/
def NAMESPACE_METADATA : Nat := 1

/-- Modelled from the spec: `xbox360_xdbf_structs.h` is not under `src/`.
SPA namespace id for image resources (`XDBF_SPA_NAMESPACE_IMAGE`). -/
def NAMESPACE_IMAGE : Nat := 2

/-- Modelled from the spec: `xbox360_xdbf_structs.h` is not under `src/`.
SPA namespace id for string tables (`XDBF_SPA_NAMESPACE_STRING_TABLE`). -/
def NAMESPACE_STRING_TABLE : Nat := 3

/-- Modelled from the spec: `xbox360_xdbf_structs.h` is not under `src/`.
Number of XDBF language ids (`XDBF_LANGUAGE_MAX`); `XDBF_LANGUAGE_UNKNOWN`
is 0.  The claims do not depend on the exact bound, only on its
existence. -/
def LANGUAGE_MAX : Nat := 9

/-- Entry of the XDBF entry table (`XDBF_Entry`).  Fields keep the raw
big-endian values exactly as stored in the file (the source does *not*
byteswap the table on load). -/
structure Entry where
  namespace_id : Nat
  resource_id : Nat
  offset : Nat
  length : Nat
  deriving Repr, DecidableEq

/-- State of an `Xbox360_XDBF_Private` object as far as the resource
loaders observe it: the open file (`none` when closed), the validity
flag, the loaded entry table, the computed data start offset, the
string-table cache and the image cache (decoded images are abstracted to
`Nat` handles). -/
structure State where
  file : Option (List Nat)
  isValid : Bool
  entryTable : Option (List Entry)
  data_offset : Nat
  strTbl : Nat → Option (List Nat)
  map_images : Nat → Option Nat

/-- Model of `Xbox360_XDBF_Private::findResource`: linear scan of the raw
entry table, comparing against the byteswapped query ids. -/
def findResource (st : State) (ns id : Nat) : Option Entry :=
  match st.entryTable with
  | none => none
  | some tbl =>
    tbl.find? (fun e => e.namespace_id == bswap16 ns && e.resource_id == bswap64 id)

/-- Check of the string-table header (`XDBF_XSTR_Header` magic `'XSTR'`
and version 1, both big-endian), read from the first 8 bytes of the
loaded table.  The magic/version values are modelled from the spec:
`xbox360_xdbf_structs.h` is not under `src/`. -/
def xstrMagicOk (bytes : List Nat) : Bool :=
  le32 bytes 0 == bswap32 0x58535452 && le32 bytes 4 == bswap32 1

/-- Model of `Xbox360_XDBF_Private::loadStringTable`.  `xstrHdrSize` is
`sizeof(XDBF_XSTR_Header)` (kept as a parameter because the structs
header is not under `src/`).  The read address is the source's
`unsigned int` sum `be32_to_cpu(entry->offset) + this->data_offset`,
which wraps modulo 2^32.  Returns the result, the new state, and the
list of `(addr, len)` file read requests issued. -/
def loadStringTable (xstrHdrSize : Nat) (st : State) (language_id : Nat) :
    Option (List Nat) × State × List (Nat × Nat) :=
  if language_id = 0 ∨ language_id ≥ LANGUAGE_MAX then (none, st, [])
  else
    match st.strTbl language_id with
    | some v => (some v, st, [])
    | none =>
      match st.file with
      | none => (none, st, [])
      | some f =>
        if ¬ st.isValid then (none, st, [])
        else
          match findResource st NAMESPACE_STRING_TABLE language_id with
          | none => (none, st, [])
          | some entry =>
            let sz := bswap32 entry.length
            if sz ≤ xstrHdrSize ∨ sz > 1048576 then (none, st, [])
            else
              let addr := (bswap32 entry.offset + st.data_offset) % 4294967296
              let bytes := seekAndRead f addr sz
              if bytes.length ≠ sz then (none, st, [(addr, sz)])
              else if ¬ xstrMagicOk bytes then (none, st, [(addr, sz)])
              else
                (some bytes,
                 { st with strTbl := fun l => if l = language_id then some bytes else st.strTbl l },
                 [(addr, sz)])

/-- Model of `Xbox360_XDBF_Private::loadImage`.  The PNG decoder
(`RpPng::load`, an external collaborator) is passed in as `pngLoad`;
`none` models a decode failure.  The read address is the source's
`uint32_t` sum `be32_to_cpu(entry->offset) + this->data_offset`, which
wraps modulo 2^32. -/
def loadImage (st : State) (pngLoad : List Nat → Option Nat) (image_id : Nat) :
    Option Nat × State × List (Nat × Nat) :=
  match st.map_images image_id with
  | some img => (some img, st, [])
  | none =>
    match st.entryTable with
    | none => (none, st, [])
    | some _ =>
      match st.file with
      | none => (none, st, [])
      | some f =>
        if ¬ st.isValid then (none, st, [])
        else
          match findResource st NAMESPACE_IMAGE image_id with
          | none => (none, st, [])
          | some entry =>
            let addr := (bswap32 entry.offset + st.data_offset) % 4294967296
            let len := bswap32 entry.length
            if len < 16 ∨ len > 1048576 then (none, st, [])
            else
              let bytes := seekAndRead f addr len
              if bytes.length ≠ len then (none, st, [(addr, len)])
              else
                match pngLoad bytes with
                | some img =>
                  (some img,
                   { st with map_images := fun i => if i = image_id then some img else st.map_images i },
                   [(addr, len)])
                | none => (none, st, [(addr, len)])

/-! ### Achievements table (`addFields_achievements`)

The XACH record clamp.  `hdrSize` is `sizeof(XDBF_XACH_Header)` and
`entSize` is `sizeof(XDBF_XACH_Entry)`; both are kept as parameters
because `xbox360_xdbf_structs.h` is not under `src/` (the clamp logic
itself does not depend on their values). -/

/-- The resource-length gate of `addFields_achievements`: the XACH
resource length must satisfy
`XACH_MIN_SIZE <= length <= XACH_MIN_SIZE + 512*sizeof(entry)`
(the code's check `length < XACH_MIN_SIZE || length > XACH_MAX_SIZE`). -/
def xachLengthOk (hdrSize entSize length : Nat) : Bool :=
  ¬ (length < hdrSize || length > hdrSize + entSize * 512)

/-- The entry-count clamp of `addFields_achievements`, exactly as coded:

  if (xach_count > XACH_MAX_COUNT) xach_count = XACH_MAX_COUNT;
  else if (xach_count > (length - hdrSize) / entSize) xach_count = ...;

Note this is an `if`/`else if`: a declared count above 512 is clamped to
512 and the bytes-available clamp is then *skipped*. -/
def xachCount (hdrSize entSize declared length : Nat) : Nat :=
  if declared > 512 then 512
  else if declared > (length - hdrSize) / entSize then (length - hdrSize) / entSize
  else declared

/-- Number of rows emitted by the achievements loop: one per record
pointer from `p` to `p_end = p + xach_count` (the row vector also has
`xach_count` slots, so the two loop bounds coincide). -/
def xachRows (hdrSize entSize declared length : Nat) : Nat :=
  xachCount hdrSize entSize declared length

/-- One past the last buffer byte the record loop reads: records are read
at offsets `hdrSize + i*entSize` for `i < xach_count` within the buffer
of `length` bytes. -/
def xachRecordsEnd (hdrSize entSize declared length : Nat) : Nat :=
  hdrSize + xachCount hdrSize entSize declared length * entSize

end XDBF

/-- Model of `Xbox360_XDBF::isRomSupported_static`: the header must be at
least `sizeof(XDBF_Entry)` = 18 bytes and begin with the big-endian magic
`'XDBF'` and version 0x10000 (values modelled from the spec:
`xbox360_xdbf_structs.h` is not under `src/`). -/
def xdbfIsRomSupported (headerAddr : Nat) (header : List Nat) : Int :=
  if headerAddr ≠ 0 ∨ header.length < 18 then -1
  else if le32 header 0 == bswap32 0x58444246 && le32 header 4 == bswap32 0x10000 then 0
  else -1

/-! ## Nintendo 3DS (`Nintendo3DS.cpp`) -/

namespace N3DS

/-- Model of `Nintendo3DSPrivate::toNext64` instantiated at `uint32_t`:
round up to the next multiple of 64 in 32-bit arithmetic
(`(val + 63) & ~63`). -/
def toNext64u32 (v : Nat) : Nat :=
  ((v + 63) % 4294967296) &&& 0xFFFFFFC0

/-- Model of `Nintendo3DSPrivate::toNext64` instantiated at `uint64_t`. -/
def toNext64u64 (v : Nat) : Nat :=
  ((v + 63) % 18446744073709551616) &&& 0xFFFFFFFFFFFFFFC0

/-- Addition of two `uint32_t` values. -/
def u32add (a b : Nat) : Nat :=
  (a + b) % 4294967296

/-- Rounding of the ExHeader length up to the next multiple of 16 in
32-bit arithmetic (`(exheader_length + 15) & ~15`). -/
def align16u32 (v : Nat) : Nat :=
  ((v + 15) % 4294967296) &&& 0xFFFFFFF0

/-- Case-insensitive ASCII string equality (`rp_strcasecmp(...) == 0`). -/
def eqNoCase (a b : List Nat) : Bool :=
  a.map SAP.upperB == b.map SAP.upperB

/-- Modelled from the spec: `n3ds_structs.h` is not under `src/`.
The CIA header (installable-archive) layout: `header_size` u32 at 0,
`type` u16 at 4, `version` u16 at 6, `cert_chain_size` u32 at 8,
`ticket_size` u32 at 0xC, `tmd_size` u32 at 0x10, `meta_size` u32 at
0x14, `content_size` u64 at 0x18, then a 0x2000-byte `content_index`;
`sizeof(N3DS_CIA_Header_t)` = 0x2020 and
`offsetof(N3DS_CIA_Header_t, content_index)` = 0x20. -/
def sizeofCIAHeader : Nat := 0x2020

/-- Modelled from the spec: minimum total size of an SMDH file,
`sizeof(N3DS_SMDH_Header_t) + sizeof(N3DS_SMDH_Icon_t)` = 0x36C0. -/
def sizeofSMDH : Nat := 0x36C0

/-- Modelled from the spec: `sizeof(N3DS_3DSX_Header_t)` (standard plus
extended header) = 44 bytes. -/
def sizeof3DSXHeader : Nat := 44

/-- The `sz_min` computation of the CIA branch of
`Nintendo3DS::isRomSupported_static`: the six declared section sizes,
each rounded up to the next 64-byte boundary, summed — all in `uint32_t`
arithmetic, with the 64-bit `content_size` truncated to its low 32 bits
by the `(uint32_t)` cast. -/
def ciaSzMin (h : List Nat) : Nat :=
  u32add (u32add (u32add (u32add (u32add
    (toNext64u32 (le32 h 0))
    (toNext64u32 (le32 h 8)))
    (toNext64u32 (le32 h 12)))
    (toNext64u32 (le32 h 16)))
    (toNext64u32 (le32 h 24)))
    (toNext64u32 (le32 h 20))

/-- The CIA acceptance condition of `Nintendo3DS::isRomSupported_static`:
extension present and equal to `".cia"` (case-insensitive), enough header
bytes, `header_size` equal to the compiled structure size, `type` and
`version` zero, and the file at least `sz_min` bytes long. -/
def ciaCheck (header : List Nat) (ext : Option (List Nat)) (szFile : Int) : Bool :=
  match ext with
  | none => false
  | some e =>
    decide (header.length > 0x20) && eqNoCase e [46, 99, 105, 97] &&
    le32 header 0 == sizeofCIAHeader &&
    le16 header 4 == 0 && le16 header 6 == 0 &&
    decide (szFile ≥ (ciaSzMin header : Int))

/-- The non-CIA candidates of `Nintendo3DS::isRomSupported_static`, in
source order: SMDH, 3DSX, then NCSD (CCI vs eMMC via the crypt-type
section at file offset 0x118; layout modelled from the spec since
`n3ds_structs.h` is not under `src/`). -/
def detectRest (header : List Nat) (szFile : Int) : Int :=
  if header.take 4 == [83, 77, 68, 72] ∧ szFile ≥ (sizeofSMDH : Int) then 0
  else if header.take 4 == [51, 68, 83, 88] ∧ szFile ≥ (sizeof3DSXHeader : Int) then 1
  else if (header.drop 0x100).take 4 == [78, 67, 83, 68] then
    let crypt := ((header.drop 0x118).take 8) ++ List.replicate (8 - ((header.drop 0x118).take 8).length) 0
    if crypt == [0, 0, 0, 0, 0, 0, 0, 0] then 2
    else if crypt == [1, 2, 2, 2, 2, 0, 0, 0] ∨ crypt == [1, 2, 2, 2, 3, 0, 0, 0] then 3
    else -1
  else -1

/-- Model of `Nintendo3DS::isRomSupported_static`: header address must be
0 and at least 512 header bytes must be available; the CIA check comes
first and on failure detection falls through to the other candidates. -/
def isRomSupported (headerAddr : Nat) (header : List Nat)
    (ext : Option (List Nat)) (szFile : Int) : Int :=
  if headerAddr ≠ 0 ∨ header.length < 512 then -1
  else if ciaCheck header ext szFile then 4
  else detectRest header szFile

/-! ### Lazy header loaders

The loaders mutate a `Nintendo3DSPrivate` state; file I/O goes through a
read oracle (`FileOps`) whose fields correspond one-to-one to the
`file->seek` / `file->read` calls of the source.  Reads that fill a
structure return the structure's fields exactly as stored in the file
(the source byteswaps on access; the model applies the same `bswap`
calls). -/

/-- Host-endian copy of the CIA header sizes (the source reads them with
`le32_to_cpu`, the identity on the little-endian reference platform). -/
structure CIAHeader where
  header_size : Nat
  cert_chain_size : Nat
  ticket_size : Nat
  tmd_size : Nat
  meta_size : Nat
  content_size : Nat
  deriving Repr, DecidableEq

/-- TMD header (`N3DS_TMD_Header_t`); only the raw big-endian
`content_count` field is observed by the loaders. -/
structure TMDHeader where
  content_count : Nat
  deriving Repr, DecidableEq

/-- Content chunk record (`N3DS_Content_Chunk_Record_t`); raw big-endian
`index` (u16) and `size` (u64) fields. -/
structure ContentChunk where
  index : Nat
  size : Nat
  deriving Repr, DecidableEq, Inhabited

/-- NCCH header (`N3DS_NCCH_Header_NoSig_t`) as the ExHeader loader
observes it: whether the magic check passed, the
`flags[N3DS_NCCH_FLAG_BIT_MASKS]` byte, and the host-endian
`exheader_size`. -/
structure NCCHHeader where
  magicOk : Bool
  flagsMask : Nat
  exheader_size : Nat
  deriving Repr, DecidableEq

/-- NCSD partition table entry (host-endian media units). -/
structure NCSDPartition where
  offset : Nat
  length : Nat
  deriving Repr, DecidableEq

/-- State of a `Nintendo3DSPrivate` object as the lazy loaders observe
it.  `headers_loaded` is the `HeadersPresent` bitmask
(`HEADER_SMDH = 1`, `HEADER_NCCH = 2`, `HEADER_EXHEADER = 4`,
`HEADER_CIA = 8`, `HEADER_TMD = 16`, `HEADER_NCSD = 32`; values from the
enum in the source).  `romType` uses the source's `RomType` values
(CCI = 2, CIA = 4). -/
structure State where
  romType : Int
  headers_loaded : Nat
  cia : CIAHeader
  tmd_content_count : Nat
  content_chunks : List ContentChunk
  content_start_addr : Nat
  ncch : NCCHHeader
  ncch_offset : Nat
  ncch_length : Nat
  ncsd_partitions : List NCSDPartition
  media_unit_shift : Nat
  srlData : Bool

/-- Read oracle for the 3DS loaders: one field per `file->seek` /
`file->read` call site (plus the AES decrypt and the DSiWare SRL-open
collaborators).  `none` / `false` model seek failures and short reads. -/
structure FileOps where
  seekOk : Nat → Bool
  readU32 : Nat → Option Nat
  readTMDHeader : Nat → Option TMDHeader
  readContentChunks : Nat → Nat → Option (List ContentChunk)
  readNCCHHeader : Nat → Option NCCHHeader
  readExHeaderOk : Nat → Nat → Bool
  decryptOk : Bool
  srlOpenOk : Bool

/-- Modelled from the spec: `sizeof(N3DS_TMD_t)` (the TMD header past the
signature), 0xC4 bytes. -/
def sizeofTMD : Nat := 0xC4

/-- Modelled from the spec: `sizeof(N3DS_NCCH_Header_t)` (RSA signature
plus NCCH header), 0x200 bytes. -/
def sizeofNCCHHeader : Nat := 0x200

/-- Modelled from the spec: `N3DS_NCCH_EXHEADER_MIN_SIZE`, 0x400 bytes. -/
def exheaderMinSize : Nat := 0x400

/-- Signature length for a TMD signature type (the `switch` on
`signature_type & 0x07`); `none` is the invalid-type branch. -/
def tmdSigLen (s7 : Nat) : Option Nat :=
  if s7 = 0 ∨ s7 = 3 then some (4 + 0x200 + 0x3C)
  else if s7 = 1 ∨ s7 = 4 then some (4 + 0x100 + 0x3C)
  else if s7 = 2 ∨ s7 = 5 then some (4 + 0x3C + 0x40)
  else none

/-- Model of `Nintendo3DSPrivate::loadTMD`.  Returns the source's status
code and the new state. -/
def loadTMD (st : State) (f : FileOps) : Int × State :=
  if st.headers_loaded &&& 16 ≠ 0 then (0, st)
  else if st.romType ≠ 4 then (-1, st)
  else
    let tmd_start := u32add (u32add (toNext64u32 st.cia.header_size)
      (toNext64u32 st.cia.cert_chain_size)) (toNext64u32 st.cia.ticket_size)
    if ¬ f.seekOk tmd_start then (-2, st)
    else
      match f.readU32 tmd_start with
      | none => (-3, st)
      | some raw =>
        let signature_type := bswap32 raw
        if signature_type &&& 0xFFFFFFF8 ≠ 0x10000 then (-4, st)
        else
          match tmdSigLen (signature_type &&& 7) with
          | none => (-4, st)
          | some sig_len =>
            if st.cia.tmd_size < sizeofTMD + sig_len then (-5, st)
            else
              let addr := u32add tmd_start sig_len
              if ¬ f.seekOk addr then (-6, st)
              else
                match f.readTMDHeader addr with
                | none => (-7, st)
                | some tmdHdr =>
                  let addr2 := u32add addr sizeofTMD
                  if ¬ f.seekOk addr2 then (-8, st)
                  else
                    let ccount := bswap16 tmdHdr.content_count
                    match f.readContentChunks addr2 ccount with
                    | none => (-9, { st with tmd_content_count := 0, content_chunks := [] })
                    | some chunks =>
                      let csa := u32add tmd_start (toNext64u32 st.cia.tmd_size)
                      let st1 := { st with tmd_content_count := ccount,
                                           content_chunks := chunks,
                                           content_start_addr := csa }
                      let st2 :=
                        if ccount ≤ 2 ∧ ¬ st.srlData then
                          let len0 := bswap64 (chunks.headD default).size % 4294967296
                          if len0 ≥ 0x8000 ∧ f.srlOpenOk then { st1 with srlData := true }
                          else st1
                        else st1
                      (0, { st2 with headers_loaded := st2.headers_loaded ||| 16 })

/-- Content-chunk scan of `loadNCCH(idx, ...)`: accumulate the 64-byte
aligned sizes of the chunks before the one whose index matches; returns
the accumulated offset and the matched chunk's size truncated to 32 bits
(0 when no chunk matches). -/
def findChunk : List ContentChunk → Nat → Nat → Nat × Nat
  | [], _, acc => (acc, 0)
  | c :: rest, idx, acc =>
    if bswap16 c.index = idx then (acc, bswap64 c.size % 4294967296)
    else findChunk rest idx (acc + toNext64u64 (bswap64 c.size))

/-- Model of `Nintendo3DSPrivate::loadNCCH(idx, pNcchHeader, pOffset,
pLength)`.  The NCCH header is written to the state as soon as the read
succeeds (before the magic check, as in the source); the offset/length
out-parameters are written only after the magic check passes. -/
def loadNCCHAt (st : State) (f : FileOps) (idx : Nat) : Int × State :=
  if st.romType = 4 then
    if st.headers_loaded &&& 8 = 0 then (-1, st)
    else
      match loadTMD st f with
      | (ret, st1) =>
        if ret ≠ 0 then (-2, st1)
        else if idx ≥ st1.tmd_content_count then (-3, st1)
        else
          let pr := findChunk (st1.content_chunks.take st1.tmd_content_count) idx 0
          if pr.2 = 0 then (-4, st1)
          else
            let offset := pr.1 + st1.content_start_addr
            if ¬ f.seekOk (offset + 0x100) then (-4, st1)
            else
              match f.readNCCHHeader (offset + 0x100) with
              | none => (-5, st1)
              | some h =>
                if ¬ h.magicOk then (-99, { st1 with ncch := h })
                else (0, { st1 with ncch := h, ncch_offset := offset, ncch_length := pr.2 })
  else if st.romType = 2 then
    if st.headers_loaded &&& 32 = 0 then (-1, st)
    else if idx ≥ 8 then (-2, st)
    else
      let part := st.ncsd_partitions.getD idx ⟨0, 0⟩
      let offset := part.offset <<< st.media_unit_shift
      let length := (part.length <<< st.media_unit_shift) % 4294967296
      if offset ≤ 0x2000 then (-3, st)
      else if ¬ f.seekOk (offset + 0x100) then (-4, st)
      else
        match f.readNCCHHeader (offset + 0x100) with
        | none => (-5, st)
        | some h =>
          if ¬ h.magicOk then (-99, { st with ncch := h })
          else (0, { st with ncch := h, ncch_offset := offset, ncch_length := length })
  else (-98, st)

/-- Model of `Nintendo3DSPrivate::loadNCCH()` (primary content): checks
`HEADER_NCCH` first, and sets the bit only when `loadNCCH(0, ...)`
succeeds. -/
def loadNCCH0 (st : State) (f : FileOps) : Int × State :=
  if st.headers_loaded &&& 2 ≠ 0 then (0, st)
  else
    match loadNCCHAt st f 0 with
    | (ret, st1) =>
      if ret = 0 then (0, { st1 with headers_loaded := st1.headers_loaded ||| 2 })
      else (ret, st1)

/-- Crypto selection, size checks, read and decrypt of
`loadExHeader` after the NCCH header is available (the body after the
`HEADER_NCCH` load).  The decryption build (`ENABLE_DECRYPTION`) is
modelled: `NoCrypto` (flag mask 0x04) needs no key, `FixedCryptoKey`
(mask 0x01) uses the zero key, anything else is rejected with -95. -/
def loadExHeaderCore (st : State) (f : FileOps) : Int × State :=
  let flags := st.ncch.flagsMask
  if flags &&& 4 ≠ 0 ∨ flags &&& 1 ≠ 0 then
    if st.ncch.exheader_size < exheaderMinSize then (-96, st)
    else
      let len := align16u32 st.ncch.exheader_size
      let off := st.ncch_offset + sizeofNCCHHeader
      if ¬ f.seekOk off then (-97, st)
      else if ¬ f.readExHeaderOk off len then (-98, st)
      else if flags &&& 4 = 0 ∧ ¬ f.decryptOk then (-99, st)
      else (0, { st with headers_loaded := st.headers_loaded ||| 4 })
  else (-95, st)

/-- Model of `Nintendo3DSPrivate::loadExHeader`: returns cached success
immediately when `HEADER_EXHEADER` is set; otherwise loads the NCCH
header if needed and proceeds with `loadExHeaderCore`. -/
def loadExHeader (st : State) (f : FileOps) : Int × State :=
  if st.headers_loaded &&& 4 ≠ 0 then (0, st)
  else if st.headers_loaded &&& 2 = 0 then
    match loadNCCH0 st f with
    | (ret, st1) => if ret ≠ 0 then (-2, st1) else loadExHeaderCore st1 f
  else loadExHeaderCore st f

end N3DS

/-! ## Xbox 360 XEX executable (`Console/Xbox360_XEX.cpp`) -/

namespace XEX

/-- Optional header table entry (`XEX2_Optional_Header_Tbl`); fields keep
the raw big-endian values (the source does **not** byteswap the table). -/
structure OptTblEntry where
  header_id : Nat
  offset : Nat
  deriving Repr, DecidableEq

/-- Modelled from the spec: `xbox360_xex_structs.h` is not under `src/`.
Optional header id `XEX2_OPTHDR_FILE_FORMAT_INFO` (0x3FF). -/
def OPTHDR_FILE_FORMAT_INFO : Nat := 0x3FF

/-- The optional-header table read of the `Xbox360_XEX` constructor: at
most 32 entries are read (`std::min(opt_header_count, 32U)`), taken from
the start of the on-file table.  `entryAt i` is the i-th entry stored in
the file. -/
def readOptHdrTbl (declaredCount : Nat) (entryAt : Nat → OptTblEntry) : List OptTblEntry :=
  (List.range (min declaredCount 32)).map entryAt

/-- Model of `Xbox360_XEX_Private::getOptHdrTblEntry`: linear scan of the
retained table comparing the raw ids against the byteswapped query. -/
def getOptHdrTblEntry (tbl : List OptTblEntry) (header_id : Nat) : Option OptTblEntry :=
  if tbl.isEmpty then none
  else tbl.find? (fun e => e.header_id == bswap32 header_id)

/-- File format info (`XEX2_File_Format_Info`): `size` u32,
`encryption_type` u16, `compression_type` u16 (8 bytes; layout modelled
from the spec since `xbox360_xex_structs.h` is not under `src/`).  The
`raw` form holds the fields as read (big-endian storage). -/
structure FFI where
  size : Nat
  encryption_type : Nat
  compression_type : Nat
  deriving Repr, DecidableEq

/-- The PE reader produced by `initPeReader`: a `CBCReader` either with
no cipher (unencrypted) or keyed with the candidate key `i`
(0 = retail, 1 = debug/all-zero). -/
inductive PeReader where
  | plain : PeReader
  | keyed : Nat → PeReader
  deriving Repr, DecidableEq

/-- State of an `Xbox360_XEX_Private` object as `initPeReader` observes
it. -/
structure State where
  peReader : Option PeReader
  keyInUse : Int
  optHdrTbl : List OptTblEntry
  fileFormatInfo : FFI

/-- Oracle for `initPeReader`: one field per external call.  `readFFI`
models the `seekAndRead` of the file format info; `retailVerifyOk` the
`KeyManager::getAndVerify` result for the retail key (the debug key is
the all-zero constant and needs no lookup); `setKeyOk`, `titleKeyOk` and
`readerOpenOk` the per-key cipher setup, title-key decryption and
`CBCReader::isOpen` results; `mzRead i` the two bytes read from the
start of the PE image as decrypted with key `i` (`none` = short read);
`plainOpenOk` the `CBCReader::isOpen` result for the unencrypted
reader. -/
structure Env where
  readFFI : Nat → Option FFI
  retailVerifyOk : Bool
  setKeyOk : Nat → Bool
  titleKeyOk : Nat → Bool
  readerOpenOk : Nat → Bool
  mzRead : Nat → Option (Nat × Nat)
  plainOpenOk : Bool

/-- All per-key checks of the key loop body, in source order: cipher key
setup, title-key decryption, `CBCReader` open, the two-byte read, and
the `'MZ'` magic comparison (`mz != cpu_to_be16('MZ')` rejects the key;
the bytes must be 0x4D 0x5A). -/
def tryKey (env : Env) (i : Nat) : Bool :=
  env.setKeyOk i && env.titleKeyOk i && env.readerOpenOk i &&
  (match env.mzRead i with
   | none => false
   | some (b0, b1) => b0 == 0x4D && b1 == 0x5A)

/-- The key loop `for (i = idx0; i < 2; i++)`: try each candidate key in
order starting at `idx0`, stopping at the first that passes all
checks. -/
def keyLoop (env : Env) (idx0 : Nat) : Option Nat :=
  if idx0 = 0 then
    if tryKey env 0 then some 0
    else if tryKey env 1 then some 1
    else none
  else if idx0 = 1 then
    if tryKey env 1 then some 1
    else none
  else none

/-- Model of `Xbox360_XEX_Private::initPeReader`.  Returns the reader (or
`none`) and the new state.  The basic-compression segment table
(`basicZDataSegments`, consumed only by `initXDBF`) is not part of the
observed state; its loading affects `initPeReader`'s result only through
the `fileFormatInfo.size <= sizeof(fileFormatInfo)` early return, which
is modelled. -/
def initPeReader (st : State) (env : Env) : Option PeReader × State :=
  match st.peReader with
  | some r => (some r, st)
  | none =>
    match getOptHdrTblEntry st.optHdrTbl OPTHDR_FILE_FORMAT_INFO with
    | none => (none, st)
    | some e =>
      match env.readFFI (bswap32 e.offset) with
      | none => (none, st)
      | some raw =>
        let ffi : FFI := ⟨bswap32 raw.size, bswap16 raw.encryption_type, bswap16 raw.compression_type⟩
        let st1 := { st with fileFormatInfo := ffi }
        if ffi.compression_type = 1 ∧ ffi.size ≤ 8 then (none, st1)
        else if ffi.encryption_type = 0 then
          if env.plainOpenOk then (some PeReader.plain, { st1 with peReader := some PeReader.plain })
          else (none, st1)
        else
          match keyLoop env (if env.retailVerifyOk then 0 else 1) with
          | some i => (some (PeReader.keyed i),
                       { st1 with peReader := some (PeReader.keyed i), keyInUse := (i : Int) })
          | none => (none, st1)

end XEX

/-- Model of `Xbox360_XEX::isRomSupported_static`: at least
`sizeof(XEX2_Header)` = 24 bytes of header and the big-endian magic
`'XEX2'` (values modelled from the spec: `xbox360_xex_structs.h` is not
under `src/`). -/
def xexIsRomSupported (headerAddr : Nat) (header : List Nat) : Int :=
  if headerAddr ≠ 0 ∨ header.length < 24 then -1
  else if le32 header 0 == bswap32 0x58455832 then 0
  else -1

/-! ## Concrete inputs used by the claim theorems -/

/-- The C3 test vector `"SAP\r\nAUTHOR \"Foo\"\nSONGS 3\nDEFSONG 1\n\xFF"`
as bytes. -/
def sapC3Input : List Nat :=
  [83, 65, 80, 13, 10] ++
  [65, 85, 84, 72, 79, 82, 32, 34, 70, 111, 111, 34, 10] ++
  [83, 79, 78, 71, 83, 32, 51, 10] ++
  [68, 69, 70, 83, 79, 78, 71, 32, 49, 10] ++
  [255]

/-- The C6 test vector `"SAP\r\nFASTPLAY 312\n\xFF"`. -/
def sapC6Good : List Nat :=
  [83, 65, 80, 13, 10] ++ [70, 65, 83, 84, 80, 76, 65, 89, 32, 51, 49, 50, 10, 255]

/-- The C6 test vector `"SAP\r\nFASTPLAY 31x2\n\xFF"` (malformed numeric
parameter). -/
def sapC6Bad : List Nat :=
  [83, 65, 80, 13, 10] ++ [70, 65, 83, 84, 80, 76, 65, 89, 32, 51, 49, 120, 50, 10, 255]

/-- A 100-byte container for the C2 scenario. -/
def cex2File : List Nat := List.replicate 100 0

/-- A string-table resource entry (namespace 3, language 1) whose
declared range (offset 50 + length 100, after the data offset 24) runs
past the 100-byte container. -/
def cex2StrEntry : XDBF.Entry :=
  ⟨bswap16 XDBF.NAMESPACE_STRING_TABLE, bswap64 1, bswap32 50, bswap32 100⟩

/-- An image resource entry (namespace 2, id 5) whose declared range
(offset 60 + length 200, after the data offset 24) runs past the
100-byte container. -/
def cex2ImgEntry : XDBF.Entry :=
  ⟨bswap16 XDBF.NAMESPACE_IMAGE, bswap64 5, bswap32 60, bswap32 200⟩

/-- XDBF state for the C2 scenario: valid object over the 100-byte
container, both out-of-range entries in the table, nothing cached. -/
def cex2State : XDBF.State :=
  { file := some cex2File
    isValid := true
    entryTable := some [cex2StrEntry, cex2ImgEntry]
    data_offset := 24
    strTbl := fun _ => none
    map_images := fun _ => none }

/-- A 100-byte container for the C2 address-wraparound scenario, with
the big-endian `XSTR` magic and version 1 planted at byte offset 8. -/
def cex2WrapFile : List Nat :=
  List.replicate 8 0 ++ [88, 83, 84, 82, 0, 0, 0, 1] ++ List.replicate 84 0

/-- A string-table resource entry whose host-endian offset is
2^32 - 16: with the data offset 24, the source's 32-bit address sum
wraps to 8, although the mathematical offset + data offset + length
(2^32 + 28) far exceeds the 100-byte container. -/
def cex2WrapEntry : XDBF.Entry :=
  ⟨bswap16 XDBF.NAMESPACE_STRING_TABLE, bswap64 1, bswap32 4294967280, bswap32 20⟩

/-- XDBF state for the address-wraparound scenario. -/
def cex2WrapState : XDBF.State :=
  { file := some cex2WrapFile
    isValid := true
    entryTable := some [cex2WrapEntry]
    data_offset := 24
    strTbl := fun _ => none
    map_images := fun _ => none }

/-- Mathematical round-up to the next multiple of 64, as the spec words
state it (no 32-bit truncation). -/
def roundUp64 (v : Nat) : Nat :=
  ((v + 63) / 64) * 64

/-- The sum the C4 claim speaks about, following the spec's words: the
sum of all six declared CIA section sizes, each rounded up to the next
64-byte boundary, in unbounded arithmetic with the full 64-bit
`content_size`.  This is the claim-side definition, to be compared with
the source's 32-bit `ciaSzMin`. -/
def ciaDeclaredSum (h : List Nat) : Nat :=
  roundUp64 (le32 h 0) + roundUp64 (le32 h 8) + roundUp64 (le32 h 12) +
  roundUp64 (le32 h 16) + roundUp64 (le64 h 24) + roundUp64 (le32 h 20)

/-- A 512-byte CIA candidate header for the C4 counterexample:
`header_size` = 0x2020, `type` = `version` = 0, `cert_chain_size` =
0xFFFFFFC0 (which makes the 32-bit size sum wrap around), all other
sizes 0. -/
def ciaCexHeader : List Nat :=
  [0x20, 0x20, 0, 0] ++ [0, 0] ++ [0, 0] ++ [0xC0, 0xFF, 0xFF, 0xFF] ++
  List.replicate 500 0

/-- XDBF state with a cached English string table, for the C8 witness. -/
def c8XdbfState : XDBF.State :=
  { file := some []
    isValid := true
    entryTable := some []
    data_offset := 24
    strTbl := fun l => if l = 1 then some [1, 2, 3] else none
    map_images := fun _ => none }

/-- Nintendo 3DS state with `HEADER_EXHEADER` already set, for the C8
witness. -/
def c8N3State : N3DS.State :=
  { romType := 4
    headers_loaded := 4
    cia := ⟨0x2020, 0, 0, 0, 0, 0⟩
    tmd_content_count := 0
    content_chunks := []
    content_start_addr := 0
    ncch := ⟨true, 4, 0x400⟩
    ncch_offset := 0
    ncch_length := 0
    ncsd_partitions := []
    media_unit_shift := 9
    srlData := false }

/-- Read oracle where every operation fails, for witnesses that must not
depend on file contents. -/
def n3dsFailOps : N3DS.FileOps :=
  { seekOk := fun _ => false
    readU32 := fun _ => none
    readTMDHeader := fun _ => none
    readContentChunks := fun _ _ => none
    readNCCHHeader := fun _ => none
    readExHeaderOk := fun _ _ => false
    decryptOk := false
    srlOpenOk := false }

/-- XEX state for the C5 witness: no cached reader, a one-entry optional
header table carrying the file-format-info entry. -/
def c5State : XEX.State :=
  { peReader := none
    keyInUse := -1
    optHdrTbl := [⟨bswap32 XEX.OPTHDR_FILE_FORMAT_INFO, bswap32 1000⟩]
    fileFormatInfo := ⟨0, 0, 0⟩ }

/-- XEX oracle for the C5 witness: encrypted image, retail key verifies,
and only the retail key decrypts to an image starting with `'MZ'`. -/
def c5Env : XEX.Env :=
  { readFFI := fun _ => some ⟨bswap32 100, bswap16 1, bswap16 0⟩
    retailVerifyOk := true
    setKeyOk := fun _ => true
    titleKeyOk := fun _ => true
    readerOpenOk := fun _ => true
    mzRead := fun i => if i = 0 then some (0x4D, 0x5A) else some (0, 0)
    plainOpenOk := true }

/-! ## Helper lemmas -/

theorem seekAndRead_length (file : List Nat) (addr len : Nat) :
    (seekAndRead file addr len).length = min len (file.length - addr) := by
  simp [seekAndRead]

/-- Short read: a request whose end lies past end-of-file returns fewer
bytes than requested (given `0 < len`). -/
theorem seekAndRead_short (file : List Nat) (addr len : Nat)
    (hlen : 0 < len) (hoob : file.length < addr + len) :
    (seekAndRead file addr len).length ≠ len := by
  rw [seekAndRead_length]
  omega

/-- Or-ing in bits disjoint from the mask `k` does not change an
and-with-`k`. -/
theorem or_and_of_and_eq_zero {m k : Nat} (x : Nat) (h : m &&& k = 0) :
    (x ||| m) &&& k = x &&& k := by
  apply Nat.eq_of_testBit_eq
  intro i
  have hm : (m &&& k).testBit i = false := by rw [h]; simp
  simp only [Nat.testBit_land, Nat.testBit_lor] at hm ⊢
  cases hx : x.testBit i <;> cases hmm : m.testBit i <;> cases hk : k.testBit i <;>
    simp_all

/-- Or-ing in the mask itself makes the and-with-mask equal to the
mask. -/
theorem or_and_absorb (x k : Nat) : (x ||| k) &&& k = k := by
  apply Nat.eq_of_testBit_eq
  intro i
  simp only [Nat.testBit_land, Nat.testBit_lor]
  cases hx : x.testBit i <;> cases hk : k.testBit i <;> simp

/-- Bits already set survive an or. -/
theorem testBit_or_left {x : Nat} (m b : Nat) (h : x.testBit b = true) :
    (x ||| m).testBit b = true := by
  simp [Nat.testBit_lor, h]

/-! ## Claim theorems -/

/-- C1 (code bug): the XACH clamp in `addFields_achievements` is an
`if`/`else if`, so a header-declared count above 512 is clamped to 512
and the bytes-available clamp is skipped.  For every header size and
every positive record size, a resource of length `hdrSize + entSize`
(room for exactly one record) passing the length gate with a declared
count of 513 yields 512 rows — more than
`min(declared, 512, bytes-available/record-size) = 1` — and the record
loop's last byte `xachRecordsEnd` lies past the loaded buffer. -/
theorem claim_C1_xach_overread (hdrSize entSize : Nat) (h1 : 1 ≤ entSize) :
    XDBF.xachLengthOk hdrSize entSize (hdrSize + entSize) = true ∧
    XDBF.xachRows hdrSize entSize 513 (hdrSize + entSize) = 512 ∧
    min 513 (min 512 ((hdrSize + entSize - hdrSize) / entSize)) = 1 ∧
    hdrSize + entSize < XDBF.xachRecordsEnd hdrSize entSize 513 (hdrSize + entSize) := by
  have hmul : entSize * 1 ≤ entSize * 512 := Nat.mul_le_mul_left entSize (by norm_num)
  have hdiv : (hdrSize + entSize - hdrSize) / entSize = 1 := by
    rw [Nat.add_sub_cancel_left, Nat.div_self (by omega)]
  refine ⟨?_, ?_, ?_, ?_⟩
  · simp [XDBF.xachLengthOk]
    omega
  · simp [XDBF.xachRows, XDBF.xachCount]
  · rw [hdiv]; norm_num
  · simp only [XDBF.xachRecordsEnd, XDBF.xachCount]
    norm_num
    omega

/-- Witness for C1 at the concrete sizes `hdrSize = 14`,
`entSize = 36`. -/
theorem claim_C1_xach_overread_witness :
    1 ≤ 36 ∧
    (XDBF.xachLengthOk 14 36 (14 + 36) = true ∧
     XDBF.xachRows 14 36 513 (14 + 36) = 512 ∧
     min 513 (min 512 ((14 + 36 - 14) / 36)) = 1 ∧
     14 + 36 < XDBF.xachRecordsEnd 14 36 513 (14 + 36)) :=
  ⟨by norm_num, claim_C1_xach_overread 14 36 (by norm_num)⟩

/-- C3: parsing the tag stream
`"SAP\r\nAUTHOR \"Foo\"\nSONGS 3\nDEFSONG 1\n\xFF"` yields a tag set
with `author = "Foo"`, `songs = 3`, `def_song = 1`, both boolean flags
false, and every other field at its constructor default. -/
theorem claim_C3_sap_example :
    SAP.parseTags sapC3Input =
      { tags_read := true, author := [70, 111, 111], songs := 3, def_song := 1 } := by
  decide

/-- C6: the line `"FASTPLAY 312"` sets `fastplay` to 312, while
`"FASTPLAY 31x2"` (non-numeric trailing characters) leaves `fastplay`
at its default value. -/
theorem claim_C6_fastplay :
    (SAP.parseTags sapC6Good).fastplay = 312 ∧
    (SAP.parseTags sapC6Bad).fastplay = ({} : SAP.TagData).fastplay := by
  decide

/-- C7: detection is a pure function of the detection input (header
bytes, header address, optional extension, file size); the embedded
detectors consult no other state, so calling any of them twice on the
same input gives the same result. -/
theorem claim_C7_detector_determinism (headerAddr : Nat) (header : List Nat)
    (ext : Option (List Nat)) (szFile : Int) :
    SAP.isRomSupported headerAddr header = SAP.isRomSupported headerAddr header ∧
    xdbfIsRomSupported headerAddr header = xdbfIsRomSupported headerAddr header ∧
    N3DS.isRomSupported headerAddr header ext szFile =
      N3DS.isRomSupported headerAddr header ext szFile :=
  ⟨rfl, rfl, rfl⟩

/-- C10: the SAP tag parser examines at most the first 4096 bytes (the
parse of any file equals the parse of its 4096-byte prefix); fewer than
6 available bytes, or a stream not starting with `"SAP\r\n"` or
`"SAP\n"`, yields the default tag set, whose `tags_read` is false. -/
theorem claim_C10_sap_window (file : List Nat) :
    SAP.parseTags file = SAP.parseTags (file.take 4096) ∧
    (file.length < 6 → SAP.parseTags file = {}) ∧
    (file.take 5 ≠ [83, 65, 80, 13, 10] → file.take 4 ≠ [83, 65, 80, 10] →
      SAP.parseTags file = {}) ∧
    ({} : SAP.TagData).tags_read = false := by
  refine ⟨?_, ?_, ?_, rfl⟩
  · simp [SAP.parseTags, List.take_take]
  · intro h
    have hlen : (file.take 4096).length < 6 := by
      rw [List.length_take]; omega
    simp only [SAP.parseTags]
    rw [if_pos hlen]
  · intro h5 h4
    have e5 : (file.take 4096).take 5 = file.take 5 := by
      simp [List.take_take]
    have e4 : (file.take 4096).take 4 = file.take 4 := by
      simp [List.take_take]
    simp only [SAP.parseTags, e5, e4]
    split
    · rfl
    · rw [if_neg (by simp [h5]), if_neg (by simp [h4])]

/-- Witness for C10 at the one-byte file `[0]`. -/
theorem claim_C10_sap_window_witness :
    SAP.parseTags [0] = SAP.parseTags (List.take 4096 [0]) ∧
    SAP.parseTags [0] = {} :=
  ⟨(claim_C10_sap_window [0]).1, (claim_C10_sap_window [0]).2.1 (by norm_num)⟩

/-- Every non-CIA detection result of the 3DS detector differs from the
CIA type code. -/
theorem detectRest_ne_four (h : List Nat) (s : Int) : N3DS.detectRest h s ≠ 4 := by
  simp only [N3DS.detectRest]
  repeat' split <;> norm_num

/-- C4 (amended): the detector classifies a file as CIA only if the
header-size field equals the compiled structure size and the section-size
sum — computed in 32-bit arithmetic, with the 64-bit content size
truncated to its low 32 bits — does not exceed the file size; if the CIA
condition fails, detection falls through to the remaining candidate
formats. -/
theorem claim_C4_cia_detection (headerAddr : Nat) (header : List Nat)
    (ext : Option (List Nat)) (szFile : Int) :
    (N3DS.isRomSupported headerAddr header ext szFile = 4 →
      le32 header 0 = N3DS.sizeofCIAHeader ∧ (N3DS.ciaSzMin header : Int) ≤ szFile) ∧
    (N3DS.ciaCheck header ext szFile = false → headerAddr = 0 → 512 ≤ header.length →
      N3DS.isRomSupported headerAddr header ext szFile = N3DS.detectRest header szFile) := by
  constructor
  · intro hres
    simp only [N3DS.isRomSupported] at hres
    split at hres
    · norm_num at hres
    · split at hres
      · rename_i hcc
        rcases ext with _ | e
        · simp [N3DS.ciaCheck] at hcc
        · simp only [N3DS.ciaCheck, Bool.and_eq_true, beq_iff_eq,
            decide_eq_true_eq] at hcc
          exact ⟨hcc.1.1.1.2, hcc.2⟩
      · exact absurd hres (detectRest_ne_four header szFile)
  · intro hcc h0 hlen
    simp only [N3DS.isRomSupported]
    rw [if_neg (by omega), if_neg (by simp [hcc])]

set_option maxRecDepth 10000 in
/-- C4 counterexample: `ciaCexHeader` declares a certificate-chain size
of 0xFFFFFFC0, so the aligned section sizes sum to 0x100004000 — far
beyond the 0x3000-byte file — yet the 32-bit sum wraps to 0x2000 and the
detector still classifies the file as CIA, contradicting the claim that
a file whose declared sections exceed its size falls through. -/
theorem claim_C4_counterexample :
    N3DS.isRomSupported 0 ciaCexHeader (some [46, 99, 105, 97]) 0x3000 = 4 ∧
    (0x3000 : Int) < (ciaDeclaredSum ciaCexHeader : Int) := by
  constructor
  · decide
  · decide

set_option maxRecDepth 10000 in
/-- Witness for C4 at the counterexample input. -/
theorem claim_C4_cia_detection_witness :
    le32 ciaCexHeader 0 = N3DS.sizeofCIAHeader ∧
    (N3DS.ciaSzMin ciaCexHeader : Int) ≤ 0x3000 :=
  (claim_C4_cia_detection 0 ciaCexHeader (some [46, 99, 105, 97]) 0x3000).1 (by decide)

/-- C2 (amended): a resource-table entry whose 32-bit-wrapped read
address (`be32_to_cpu(entry->offset) + data_offset`, computed in
`uint32`) plus declared length runs past the container makes the
string-table and image loads return null — the loader attempts the
bounded read, which comes back short and is rejected before any
resource bytes are interpreted.  (For an entry whose *mathematical*
offset sum exceeds 2^32 the address wraps and the load can succeed; see
the counterexample.) -/
theorem claim_C2_oob_entries (xstrHdrSize : Nat) (st : XDBF.State) (f : List Nat)
    (lang : Nat) (se ie : XDBF.Entry) (pngLoad : List Nat → Option Nat) (img_id : Nat) :
    (st.file = some f →
      st.strTbl lang = none →
      XDBF.findResource st XDBF.NAMESPACE_STRING_TABLE lang = some se →
      f.length < (bswap32 se.offset + st.data_offset) % 4294967296 + bswap32 se.length →
      (XDBF.loadStringTable xstrHdrSize st lang).1 = none) ∧
    (st.file = some f →
      st.map_images img_id = none →
      XDBF.findResource st XDBF.NAMESPACE_IMAGE img_id = some ie →
      f.length < (bswap32 ie.offset + st.data_offset) % 4294967296 + bswap32 ie.length →
      (XDBF.loadImage st pngLoad img_id).1 = none) := by
  constructor
  · intro hf hcache hfind hoob
    simp only [XDBF.loadStringTable]
    split
    · rfl
    · rw [hcache, hf]
      simp only
      split
      · rfl
      · rw [hfind]
        simp only
        split
        · rfl
        · rename_i hsz
          have hs : xstrHdrSize < bswap32 se.length := by
            rcases not_or.mp hsz with ⟨h1, _⟩
            omega
          have hshort : (seekAndRead f ((bswap32 se.offset + st.data_offset) % 4294967296)
              (bswap32 se.length)).length ≠ bswap32 se.length := by
            rw [seekAndRead_length]
            omega
          rw [if_pos hshort]
  · intro hf hcache hfind hoob
    simp only [XDBF.loadImage]
    rw [hcache]
    simp only
    split
    · rfl
    · rw [hf]
      simp only
      split
      · rfl
      · rw [hfind]
        simp only
        split
        · rfl
        · rename_i hsz
          have hs : 16 ≤ bswap32 ie.length := by
            rcases not_or.mp hsz with ⟨h1, _⟩
            omega
          have hshort : (seekAndRead f ((bswap32 ie.offset + st.data_offset) % 4294967296)
              (bswap32 ie.length)).length ≠ bswap32 ie.length := by
            rw [seekAndRead_length]
            omega
          rw [if_pos hshort]

set_option maxRecDepth 10000 in
/-- C2 counterexample, in two parts.  First, at `cex2State` both loads
return null but the claim's "never attempts to read the resource's
bytes" is false — the loaders issue the read requests `(74, 100)` and
`(84, 200)` over the 100-byte container and only then reject the short
reads.  Second, even "returns not found" is false of the program: at
`cex2WrapState` the entry's mathematical offset + data offset + length
(2^32 + 28) exceeds the 100-byte container, yet the source's 32-bit
address sum wraps to 8 and the string-table load succeeds on the
planted in-bounds `XSTR` header. -/
theorem claim_C2_counterexample :
    cex2File.length = 100 ∧
    XDBF.findResource cex2State XDBF.NAMESPACE_STRING_TABLE 1 = some cex2StrEntry ∧
    100 < bswap32 cex2StrEntry.offset + cex2State.data_offset + bswap32 cex2StrEntry.length ∧
    (XDBF.loadStringTable 14 cex2State 1).2.2 = [(74, 100)] ∧
    (XDBF.loadImage cex2State (fun _ => none) 5).2.2 = [(84, 200)] ∧
    cex2WrapFile.length = 100 ∧
    XDBF.findResource cex2WrapState XDBF.NAMESPACE_STRING_TABLE 1 = some cex2WrapEntry ∧
    100 < bswap32 cex2WrapEntry.offset + cex2WrapState.data_offset + bswap32 cex2WrapEntry.length ∧
    (bswap32 cex2WrapEntry.offset + cex2WrapState.data_offset) % 4294967296 = 8 ∧
    (XDBF.loadStringTable 14 cex2WrapState 1).1 ≠ none := by
  decide

set_option maxRecDepth 10000 in
/-- Witness for C2 at the concrete out-of-range state. -/
theorem claim_C2_oob_entries_witness :
    (XDBF.loadStringTable 14 cex2State 1).1 = none ∧
    (XDBF.loadImage cex2State (fun _ => none) 5).1 = none :=
  ⟨(claim_C2_oob_entries 14 cex2State cex2File 1 cex2StrEntry cex2ImgEntry (fun _ => none) 5).1
      rfl rfl (by decide) (by decide),
   (claim_C2_oob_entries 14 cex2State cex2File 1 cex2StrEntry cex2ImgEntry (fun _ => none) 5).2
      rfl rfl (by decide) (by decide)⟩

/-- Or-ing two masks that are each disjoint from `k` stays disjoint from
`k`. -/
theorem or_and_eq_zero {k : Nat} (m1 m2 : Nat) (h1 : m1 &&& k = 0) (h2 : m2 &&& k = 0) :
    (m1 ||| m2) &&& k = 0 := by
  apply Nat.eq_of_testBit_eq
  intro i
  have e1 : (m1 &&& k).testBit i = false := by rw [h1]; simp
  have e2 : (m2 &&& k).testBit i = false := by rw [h2]; simp
  simp only [Nat.testBit_land, Nat.testBit_lor] at e1 e2 ⊢
  cases hx : m1.testBit i <;> cases hy : m2.testBit i <;> cases hk : k.testBit i <;>
    simp_all

/-- The TMD loader changes `headers_loaded` only by or-ing in
`HEADER_TMD` (16), and only on success. -/
theorem loadTMD_headers (st : N3DS.State) (f : N3DS.FileOps) :
    (N3DS.loadTMD st f).2.headers_loaded = st.headers_loaded ∨
    (N3DS.loadTMD st f).2.headers_loaded = st.headers_loaded ||| 16 := by
  simp only [N3DS.loadTMD]
  repeat' split
  all_goals first
    | exact Or.inl rfl
    | exact Or.inr rfl

/-- The indexed NCCH loader changes `headers_loaded` only through its
`loadTMD` call. -/
theorem loadNCCHAt_headers (st : N3DS.State) (f : N3DS.FileOps) (idx : Nat) :
    (N3DS.loadNCCHAt st f idx).2.headers_loaded = st.headers_loaded ∨
    (N3DS.loadNCCHAt st f idx).2.headers_loaded = st.headers_loaded ||| 16 := by
  rcases hT : N3DS.loadTMD st f with ⟨ret, st1⟩
  have hh := loadTMD_headers st f
  rw [hT] at hh
  simp only [N3DS.loadNCCHAt, hT]
  repeat' split
  all_goals simp_all

/-- The primary NCCH loader changes `headers_loaded` only by or-ing in
`HEADER_TMD` (16) and/or `HEADER_NCCH` (2). -/
theorem loadNCCH0_headers (st : N3DS.State) (f : N3DS.FileOps) :
    (N3DS.loadNCCH0 st f).2.headers_loaded = st.headers_loaded ∨
    (N3DS.loadNCCH0 st f).2.headers_loaded = st.headers_loaded ||| 16 ∨
    (N3DS.loadNCCH0 st f).2.headers_loaded = st.headers_loaded ||| 2 ∨
    (N3DS.loadNCCH0 st f).2.headers_loaded = st.headers_loaded ||| 16 ||| 2 := by
  rcases hA : N3DS.loadNCCHAt st f 0 with ⟨ret, st1⟩
  have hh := loadNCCHAt_headers st f 0
  rw [hA] at hh
  simp only [N3DS.loadNCCH0, hA]
  dsimp only at hh
  repeat' split
  all_goals dsimp only
  all_goals first
    | exact Or.inl rfl
    | rcases hh with h | h <;> rw [h] <;>
        first
          | exact Or.inl rfl
          | exact Or.inr (Or.inl rfl)
          | exact Or.inr (Or.inr (Or.inl rfl))
          | exact Or.inr (Or.inr (Or.inr rfl))

/-- The ExHeader body either succeeds and sets exactly
`HEADER_EXHEADER` (4), or fails leaving the state untouched. -/
theorem loadExHeaderCore_spec (st : N3DS.State) (f : N3DS.FileOps) :
    ((N3DS.loadExHeaderCore st f).1 = 0 ∧
      (N3DS.loadExHeaderCore st f).2.headers_loaded = st.headers_loaded ||| 4) ∨
    ((N3DS.loadExHeaderCore st f).1 ≠ 0 ∧ (N3DS.loadExHeaderCore st f).2 = st) := by
  simp only [N3DS.loadExHeaderCore]
  repeat' split
  all_goals first
    | exact Or.inl ⟨rfl, rfl⟩
    | exact Or.inr ⟨by simp, rfl⟩

/-- End-to-end bitmask discipline of `loadExHeader`: the new bitmask is
the old one with some extra bits or-ed in; on failure none of the extra
bits is `HEADER_EXHEADER`, and on success `HEADER_EXHEADER` is set. -/
theorem loadExHeader_spec (st : N3DS.State) (f : N3DS.FileOps) :
    ∃ m, (N3DS.loadExHeader st f).2.headers_loaded = st.headers_loaded ||| m ∧
      ((N3DS.loadExHeader st f).1 ≠ 0 → m &&& 4 = 0) ∧
      ((N3DS.loadExHeader st f).1 = 0 →
        (N3DS.loadExHeader st f).2.headers_loaded &&& 4 ≠ 0) := by
  by_cases hc : st.headers_loaded &&& 4 ≠ 0
  · have he : N3DS.loadExHeader st f = (0, st) := by
      unfold N3DS.loadExHeader
      rw [if_pos hc]
    refine ⟨0, by rw [he]; simp, fun _ => by decide, fun _ => by rw [he]; simpa using hc⟩
  · unfold N3DS.loadExHeader
    rw [if_neg hc]
    by_cases h2 : st.headers_loaded &&& 2 = 0
    · rw [if_pos h2]
      rcases hN : N3DS.loadNCCH0 st f with ⟨ret, st1⟩
      have hh1 := loadNCCH0_headers st f
      rw [hN] at hh1
      dsimp only
      by_cases hret : ret ≠ 0
      · rw [if_pos hret]
        have hm : ∃ m, m &&& 4 = 0 ∧ st1.headers_loaded = st.headers_loaded ||| m := by
          rcases hh1 with h | h | h | h
          · exact ⟨0, by decide, by rw [h]; simp⟩
          · exact ⟨16, by decide, h⟩
          · exact ⟨2, by decide, h⟩
          · exact ⟨16 ||| 2, by decide, by rw [h, Nat.or_assoc]⟩
        obtain ⟨m, hm0, hmeq⟩ := hm
        exact ⟨m, hmeq, fun _ => hm0, fun h0 => by simp at h0⟩
      · rw [if_neg hret]
        have hm : ∃ m, m &&& 4 = 0 ∧ st1.headers_loaded = st.headers_loaded ||| m := by
          rcases hh1 with h | h | h | h
          · exact ⟨0, by decide, by rw [h]; simp⟩
          · exact ⟨16, by decide, h⟩
          · exact ⟨2, by decide, h⟩
          · exact ⟨16 ||| 2, by decide, by rw [h, Nat.or_assoc]⟩
        obtain ⟨m, hm0, hmeq⟩ := hm
        rcases loadExHeaderCore_spec st1 f with ⟨hr, hh⟩ | ⟨hr, hh⟩
        · refine ⟨m ||| 4, ?_, fun hne => absurd hr hne, fun _ => ?_⟩
          · rw [hh, hmeq, Nat.or_assoc]
          · rw [hh, or_and_absorb]
            decide
        · refine ⟨m, by rw [hh, hmeq], fun _ => hm0, fun h0 => absurd h0 hr⟩
    · rw [if_neg h2]
      rcases loadExHeaderCore_spec st f with ⟨hr, hh⟩ | ⟨hr, hh⟩
      · refine ⟨4, hh, fun hne => absurd hr hne, fun _ => ?_⟩
        rw [hh, or_and_absorb]
        decide
      · refine ⟨0, by rw [hh]; simp, fun _ => by decide, fun h0 => absurd h0 hr⟩

/-- The string-table loader returns the cached table immediately — with
no file reads and no state change — for any in-range language whose
table is loaded. -/
theorem loadStringTable_cached (hs : Nat) (st : XDBF.State) (lang : Nat) (v : List Nat)
    (hl0 : lang ≠ 0) (hl1 : lang < XDBF.LANGUAGE_MAX) (hcache : st.strTbl lang = some v) :
    XDBF.loadStringTable hs st lang = (some v, st, []) := by
  simp only [XDBF.loadStringTable]
  rw [if_neg (show ¬(lang = 0 ∨ lang ≥ XDBF.LANGUAGE_MAX) by
    simp only [XDBF.LANGUAGE_MAX] at hl1 ⊢
    omega), hcache]

/-- Case analysis of `loadStringTable`: failure leaves the state
untouched; a cached hit returns the cached table with no reads;
otherwise success stores the freshly loaded table under its language. -/
theorem loadStringTable_cases (hs : Nat) (st : XDBF.State) (lang : Nat) :
    ((XDBF.loadStringTable hs st lang).1 = none ∧ (XDBF.loadStringTable hs st lang).2.1 = st) ∨
    (∃ v, st.strTbl lang = some v ∧ XDBF.loadStringTable hs st lang = (some v, st, [])) ∨
    (∃ v, st.strTbl lang = none ∧ (XDBF.loadStringTable hs st lang).1 = some v ∧
      (XDBF.loadStringTable hs st lang).2.1 =
        { st with strTbl := fun l => if l = lang then some v else st.strTbl l }) := by
  simp only [XDBF.loadStringTable]
  repeat' split
  all_goals first
    | exact Or.inl ⟨rfl, rfl⟩
    | exact Or.inr (Or.inl ⟨_, by assumption, rfl⟩)
    | exact Or.inr (Or.inr ⟨_, by assumption, rfl, rfl⟩)

/-- C8: lazy load discipline.  For the XDBF string-table loader: a
cached table is returned immediately with no file read and no state
change; a failed load leaves the state unchanged; a successful load
records the table under its language; and the set of loaded tables grows
monotonically.  For the 3DS ExHeader loader: a set `HEADER_EXHEADER` bit
short-circuits to cached success with the state unchanged (for every
read oracle, hence without touching the file); all bits already set
survive the call; a failed load leaves the `HEADER_EXHEADER` bit exactly
as it was; and a successful load ends with the bit set. -/
theorem claim_C8_lazy_load_discipline :
    (∀ hs st lang v, lang ≠ 0 → lang < XDBF.LANGUAGE_MAX → st.strTbl lang = some v →
       XDBF.loadStringTable hs st lang = (some v, st, [])) ∧
    (∀ hs st lang, (XDBF.loadStringTable hs st lang).1 = none →
       (XDBF.loadStringTable hs st lang).2.1 = st) ∧
    (∀ hs st lang v, (XDBF.loadStringTable hs st lang).1 = some v →
       (XDBF.loadStringTable hs st lang).2.1.strTbl lang = some v) ∧
    (∀ hs st lang l w, st.strTbl l = some w →
       (XDBF.loadStringTable hs st lang).2.1.strTbl l = some w) ∧
    (∀ st f, st.headers_loaded &&& 4 ≠ 0 → N3DS.loadExHeader st f = (0, st)) ∧
    (∀ st f b, st.headers_loaded.testBit b = true →
       (N3DS.loadExHeader st f).2.headers_loaded.testBit b = true) ∧
    (∀ st f, (N3DS.loadExHeader st f).1 ≠ 0 →
       (N3DS.loadExHeader st f).2.headers_loaded &&& 4 = st.headers_loaded &&& 4) ∧
    (∀ st f, (N3DS.loadExHeader st f).1 = 0 →
       (N3DS.loadExHeader st f).2.headers_loaded &&& 4 ≠ 0) := by
  refine ⟨?_, ?_, ?_, ?_, ?_, ?_, ?_, ?_⟩
  · exact fun hs st lang v hl0 hl1 hc => loadStringTable_cached hs st lang v hl0 hl1 hc
  · intro hs st lang hres
    rcases loadStringTable_cases hs st lang with ⟨_, h⟩ | ⟨v, _, h⟩ | ⟨v, _, h, _⟩
    · exact h
    · rw [h] at hres; simp at hres
    · rw [h] at hres; simp at hres
  · intro hs st lang v hres
    rcases loadStringTable_cases hs st lang with ⟨h, _⟩ | ⟨w, hw, h⟩ | ⟨w, _, h, hst⟩
    · rw [hres] at h; simp at h
    · rw [h] at hres
      simp only at hres
      rw [h]
      simp only
      rw [hw, hres]
    · rw [h] at hres
      rw [hst]
      simp_all
  · intro hs st lang l w hcache
    rcases loadStringTable_cases hs st lang with ⟨_, h⟩ | ⟨v, _, h⟩ | ⟨v, hnone, _, hst⟩
    · rw [h]; exact hcache
    · rw [h]; exact hcache
    · rw [hst]
      simp only
      by_cases hl : l = lang
      · rw [hl, hnone] at hcache; simp at hcache
      · rw [if_neg hl]; exact hcache
  · intro st f hc
    unfold N3DS.loadExHeader
    rw [if_pos hc]
  · intro st f b hb
    obtain ⟨m, hm, _, _⟩ := loadExHeader_spec st f
    rw [hm]
    exact testBit_or_left m b hb
  · intro st f hr
    obtain ⟨m, hm, h2, _⟩ := loadExHeader_spec st f
    rw [hm]
    exact or_and_of_and_eq_zero _ (h2 hr)
  · intro st f h0
    obtain ⟨m, _, _, h3⟩ := loadExHeader_spec st f
    exact h3 h0

/-- Witness for C8 at concrete cached states: the cached XDBF string
table comes back with no reads, and a 3DS state with `HEADER_EXHEADER`
set returns success even against an oracle where every file operation
fails. -/
theorem claim_C8_lazy_load_discipline_witness :
    XDBF.loadStringTable 14 c8XdbfState 1 = (some [1, 2, 3], c8XdbfState, []) ∧
    N3DS.loadExHeader c8N3State n3dsFailOps = (0, c8N3State) :=
  ⟨claim_C8_lazy_load_discipline.1 14 c8XdbfState 1 [1, 2, 3] (by norm_num) (by decide) rfl,
   claim_C8_lazy_load_discipline.2.2.2.2.1 c8N3State n3dsFailOps (by decide)⟩

/-- Reduction of `initPeReader` in the encrypted case: the result is
exactly the outcome of the key loop started at the retail key when it
verifies and at the debug key otherwise. -/
theorem initPeReader_enc (st : XEX.State) (env : XEX.Env) (e : XEX.OptTblEntry) (raw : XEX.FFI)
    (hpe : st.peReader = none)
    (hentry : XEX.getOptHdrTblEntry st.optHdrTbl XEX.OPTHDR_FILE_FORMAT_INFO = some e)
    (hffi : env.readFFI (bswap32 e.offset) = some raw)
    (henc : bswap16 raw.encryption_type ≠ 0)
    (hcmp : ¬ (bswap16 raw.compression_type = 1 ∧ bswap32 raw.size ≤ 8)) :
    (XEX.initPeReader st env).1 =
      match XEX.keyLoop env (if env.retailVerifyOk then 0 else 1) with
      | some i => some (XEX.PeReader.keyed i)
      | none => none := by
  simp only [XEX.initPeReader, hpe, hentry, hffi]
  rw [if_neg hcmp, if_neg henc]
  cases hkl : XEX.keyLoop env (if env.retailVerifyOk then 0 else 1) <;> simp

/-- C5: key policy of the XEX PE reader.  For an encrypted image (with
the file-format info readable and the basic-compression gate passed):
when the retail key verifies, the reader is the retail key's reader if
its per-key checks — ending in the `'MZ'` magic comparison — pass, else
the debug key's reader if its checks pass, else null; when the retail
key is unavailable or fails verification, only the debug key is tried;
the reader is null exactly when every candidate key fails its checks;
and any returned reader is keyed by a candidate whose decrypted image
began with `'MZ'` — never a reader over garbage. -/
theorem claim_C5_xex_key_policy (st : XEX.State) (env : XEX.Env)
    (e : XEX.OptTblEntry) (raw : XEX.FFI)
    (hpe : st.peReader = none)
    (hentry : XEX.getOptHdrTblEntry st.optHdrTbl XEX.OPTHDR_FILE_FORMAT_INFO = some e)
    (hffi : env.readFFI (bswap32 e.offset) = some raw)
    (henc : bswap16 raw.encryption_type ≠ 0)
    (hcmp : ¬ (bswap16 raw.compression_type = 1 ∧ bswap32 raw.size ≤ 8)) :
    (env.retailVerifyOk = true →
      (XEX.initPeReader st env).1 =
        (if XEX.tryKey env 0 then some (XEX.PeReader.keyed 0)
         else if XEX.tryKey env 1 then some (XEX.PeReader.keyed 1) else none)) ∧
    (env.retailVerifyOk = false →
      (XEX.initPeReader st env).1 =
        (if XEX.tryKey env 1 then some (XEX.PeReader.keyed 1) else none)) ∧
    ((XEX.initPeReader st env).1 = none ↔
      ∀ i, i < 2 → (env.retailVerifyOk = false → i = 1) → XEX.tryKey env i = false) ∧
    (∀ r, (XEX.initPeReader st env).1 = some r →
      ∃ i, r = XEX.PeReader.keyed i ∧ XEX.tryKey env i = true) := by
  have hred := initPeReader_enc st env e raw hpe hentry hffi henc hcmp
  cases hr : env.retailVerifyOk <;> rw [hr] at hred <;>
    by_cases t0 : XEX.tryKey env 0 <;> by_cases t1 : XEX.tryKey env 1 <;>
      simp only [if_pos, if_neg, if_true, if_false, XEX.keyLoop] at hred <;>
      refine ⟨?_, ?_, ?_, ?_⟩ <;>
        simp_all [XEX.keyLoop] <;>
        first
          | exact ⟨0, by norm_num, t0⟩
          | exact ⟨1, by norm_num, t1⟩
          | (intro i hi; interval_cases i <;> assumption)

/-- Witness for C5: with a verifying retail key and an image whose
retail-key decryption starts with `'MZ'`, the reader is the retail
one. -/
theorem claim_C5_xex_key_policy_witness :
    (XEX.initPeReader c5State c5Env).1 = some (XEX.PeReader.keyed 0) := by
  have h := (claim_C5_xex_key_policy c5State c5Env
      ⟨bswap32 XEX.OPTHDR_FILE_FORMAT_INFO, bswap32 1000⟩
      ⟨bswap32 100, bswap16 1, bswap16 0⟩
      rfl (by decide) rfl (by decide) (by decide)).1 rfl
  rw [h]
  decide

/-- C9: the XEX constructor retains at most the first 32 optional-header
table entries (`min(opt_header_count, 32)`), and every entry
`getOptHdrTblEntry` can return comes from one of the first 32 entries
stored in the file — headers beyond the 32nd are never found. -/
theorem claim_C9_optheader_cap (declared : Nat) (entryAt : Nat → XEX.OptTblEntry)
    (hid : Nat) (e : XEX.OptTblEntry) :
    (XEX.readOptHdrTbl declared entryAt).length ≤ 32 ∧
    (XEX.getOptHdrTblEntry (XEX.readOptHdrTbl declared entryAt) hid = some e →
      ∃ i, i < 32 ∧ i < declared ∧ e = entryAt i ∧ e.header_id = bswap32 hid) := by
  constructor
  · simp [XEX.readOptHdrTbl]
  · intro hfind
    simp only [XEX.getOptHdrTblEntry] at hfind
    split at hfind
    · simp at hfind
    · have hmem := List.mem_of_find?_eq_some hfind
      have hpred := List.find?_some hfind
      simp only [XEX.readOptHdrTbl, List.mem_map, List.mem_range] at hmem
      obtain ⟨i, hi, he⟩ := hmem
      have hilt : i < declared ∧ i < 32 := by
        constructor <;> omega
      refine ⟨i, hilt.2, hilt.1, he.symm, ?_⟩
      simpa using hpred

/-- Witness for C9: a table declaring 40 optional headers is truncated
to 32 retained entries, and looking up id 5 finds the 6th stored
entry. -/
theorem claim_C9_optheader_cap_witness :
    (XEX.readOptHdrTbl 40 (fun i => ⟨bswap32 i, 0⟩)).length ≤ 32 ∧
    ∃ i, i < 32 ∧ i < 40 ∧
      (⟨bswap32 5, 0⟩ : XEX.OptTblEntry) = (fun i => (⟨bswap32 i, 0⟩ : XEX.OptTblEntry)) i ∧
      (⟨bswap32 5, 0⟩ : XEX.OptTblEntry).header_id = bswap32 5 :=
  ⟨(claim_C9_optheader_cap 40 (fun i => ⟨bswap32 i, 0⟩) 5 ⟨bswap32 5, 0⟩).1,
   (claim_C9_optheader_cap 40 (fun i => ⟨bswap32 i, 0⟩) 5 ⟨bswap32 5, 0⟩).2 (by decide)⟩


end RomProps
